import Mathlib

/-!
Shallow embedding of the flatpak-bundler orchestration pipeline (src/index.js)
and proofs about it.

The source is a single Node module.  Pure computations (key normalization,
option and manifest defaulting, command-line argument construction, path
arithmetic) are translated to Lean functions.  The effectful pipeline
(directory creation, file copies, symlinks, process spawns, the promise
chain in exports.bundle) is translated to explicit state passing: each
stage returns the list of external effects it performed together with an
Except value standing for the promise resolution or rejection, and the
outcome of each external operation is supplied by an environment of result
functions.
-/

namespace FlatpakBundler

/-- Dynamic JSON-like values, the shapes accepted by kebabify
(mappings, sequences, scalars and null).  A JS undefined binding is
modelled as key absence, never as a value. -/
inductive Jv where
  | null
  | bool (b : Bool)
  | num (n : Int)
  | str (s : String)
  | arr (xs : List Jv)
  | obj (kvs : List (String × Jv))
deriving Repr

/-- Word splitter behind lodash kebabCase, transliterated for ASCII input:
words are maximal runs of letters or digits, split additionally at a
lower-to-upper boundary, at every letter/digit boundary, and before the
last upper-case letter of an upper-case run that is followed by a
lower-case letter; all other characters separate words and are dropped. -/
def wordsGo (prev : Option Char) (cs : List Char) (acc : List Char) : List (List Char) :=
  match cs with
  | [] => if acc.isEmpty then [] else [acc.reverse]
  | c :: rest =>
    if !c.isAlphanum then
      (if acc.isEmpty then [] else [acc.reverse]) ++ wordsGo none rest []
    else
      let boundary :=
        match prev with
        | none => false
        | some p =>
          (p.isLower && c.isUpper) ||
          (p.isDigit && c.isAlpha) ||
          (p.isAlpha && c.isDigit) ||
          (p.isUpper && c.isUpper && ((rest.head?.map Char.isLower).getD false))
      if boundary && !acc.isEmpty then
        acc.reverse :: wordsGo (some c) rest [c]
      else
        wordsGo (some c) rest (c :: acc)

/-- lodash kebabCase: split into words, lower-case each, join with dashes. -/
def kebabCase (s : String) : String :=
  String.intercalate "-" ((wordsGo none s.data []).map fun w => String.mk (w.map Char.toLower))

/-- One JS property assignment newValue[k] = v on an object modelled as an
association list: overwrite in place when the key exists, else append. -/
def objAssign (kvs : List (String × Jv)) (k : String) (v : Jv) : List (String × Jv) :=
  if kvs.any (fun kv => kv.1 = k) then
    kvs.map (fun kv => if kv.1 = k then (k, v) else kv)
  else
    kvs ++ [(k, v)]

/-- kebabify from src/index.js.  The cloneDeepWith customizer returns the
value itself for every falsy or non-object input, and for an object input
returns the result of the Object.keys reduce; because the customizer
returns a defined value in every case, cloneDeepWith uses that value
directly and never recurses into it.  Hence only the top level is
transformed: an object is rebuilt by successive assignments under
kebab-cased keys with the original property values, an array (typeof
object in JS) is rebuilt the same way from its index keys, and any other
value comes back unchanged. -/
def kebabify : Jv → Jv
  | Jv.obj kvs =>
      Jv.obj (kvs.foldl (fun acc kv => objAssign acc (kebabCase kv.1) kv.2) [])
  | Jv.arr xs =>
      Jv.obj ((List.range xs.length).zip xs |>.foldl
        (fun acc iv => objAssign acc (kebabCase (toString iv.1)) iv.2) [])
  | Jv.null => Jv.null
  | Jv.bool b => Jv.bool b
  | Jv.num n => Jv.num n
  | Jv.str s => Jv.str s

mutual
/-- Modelled from the spec: the deep key normalizer the specification
describes (section 4.1) — a structurally identical copy in which every
mapping key at every nesting depth is kebab-cased while sequence elements
and scalar leaves are preserved.  Stated only to be compared with the
kebabify embedded from the source. -/
def kebabifySpec : Jv → Jv
  | Jv.null => Jv.null
  | Jv.bool b => Jv.bool b
  | Jv.num n => Jv.num n
  | Jv.str s => Jv.str s
  | Jv.arr xs => Jv.arr (kebabifySpecList xs)
  | Jv.obj kvs => Jv.obj (kebabifySpecEntries kvs)

/-- Deep normalizer mapped over a sequence (spec companion of kebabifySpec). -/
def kebabifySpecList : List Jv → List Jv
  | [] => []
  | x :: xs => kebabifySpec x :: kebabifySpecList xs

/-- Deep normalizer mapped over mapping entries (spec companion of kebabifySpec). -/
def kebabifySpecEntries : List (String × Jv) → List (String × Jv)
  | [] => []
  | (k, v) :: kvs => (kebabCase k, kebabifySpec v) :: kebabifySpecEntries kvs
end

/-! ## Path arithmetic (Node path module, POSIX flavour) -/

/-- Node path.isAbsolute on POSIX: the path starts with a slash. -/
def isAbsolute (p : String) : Bool :=
  p.data.head? = some '/'

/-- lodash endsWith specialised to a single-character suffix
(the only use in the source is endsWith(dir, path.sep)). -/
def endsWithChar (s : String) (c : Char) : Bool :=
  s.data.getLast? = some c

/-- Node path.join of two segments, simplified: no "." or ".." segment
normalization and no collapsing of slashes inside a segment, which the
paths this program builds never contain; empty segments are skipped and
a trailing slash of the left segment is not doubled, as in Node. -/
def pathJoin (a b : String) : String :=
  if a = "" then b
  else if b = "" then a
  else if endsWithChar a '/' then a ++ b
  else a ++ "/" ++ b

/-- Node path.resolve with one argument, against the current working
directory cwd of the invoking process.  An absolute argument is returned
as is, a relative one is joined onto cwd, and the empty string resolves
to cwd itself.  An absent argument (path.resolve(undefined)) follows the
reference behavior recorded in the spec (section 9): it is treated like
the empty string, yielding the spurious non-empty path cwd. -/
def pathResolve (cwd : String) (p : Option String) : String :=
  match p with
  | none => cwd
  | some s => if s = "" then cwd else if isAbsolute s then s else pathJoin cwd s

/-- Node path.dirname on POSIX paths, transliterated: drop trailing
slashes, drop the last component, and return what precedes it (without
the separating slash when that slash is not the root). -/
def pathDirname (p : String) : String :=
  match p.data with
  | [] => "."
  | c0 :: _ =>
    let rev := p.data.reverse
    let afterTrailing := rev.dropWhile (fun c => c = '/')
    let afterComponent := afterTrailing.dropWhile (fun c => c ≠ '/')
    match afterComponent with
    | [] => if c0 = '/' then "/" else "."
    | _ :: butLast =>
      if butLast = [] then (if c0 = '/' then "/" else ".")
      else String.mk butLast.reverse

/-- Node path.basename on POSIX paths, simplified to paths without
trailing slashes: the part after the last slash. -/
def pathBasename (p : String) : String :=
  String.mk ((p.data.reverse.takeWhile (fun c => c ≠ '/')).reverse)

/-! ## Options and Manifest

The source keys its options and manifest objects with kebab-cased strings
(exports.bundle kebabifies both inputs first, embedded above over Jv).
The pipeline below works on the post-kebabify data, modelled as structures
whose optional fields stand for possibly-absent keys; field names
transliterate the JS keys. -/

/-- The options object consumed by the pipeline.  Absent keys are none. -/
structure Options where
  workingDir : Option String := none
  buildDir : Option String := none
  repoDir : Option String := none
  manifestPath : Option String := none
  bundlePath : Option String := none
  arch : Option String := none
  gpgSign : Option String := none
  gpgHomedir : Option String := none
  subject : Option String := none
  body : Option String := none
  bundleRepoUrl : Option String := none
  buildRuntime : Bool := false
  extraFlatpakBuilderArgs : Option (List String) := none
  extraFlatpakBuildBundleArgs : Option (List String) := none
deriving Repr, DecidableEq

/-- The manifest object consumed by the pipeline.  modules entries are
opaque to the core and carried verbatim; files and symlinks are lists of
(source, destination) respectively (target, destination) pairs. -/
structure Manifest where
  id : Option String := none
  branch : Option String := none
  sdk : Option String := none
  runtime : Option String := none
  runtimeVersion : Option String := none
  modules : Option (List Jv) := none
  files : Option (List (String × String)) := none
  symlinks : Option (List (String × String)) := none

/-- getOptionsWithDefaults from src/index.js: fill build-dir, repo-dir and
manifest-path from working-dir, default the two extra-argument lists to
empty, then path.resolve every path-valued option, including bundle-path
which is resolved even when absent (see pathResolve).  The source reads
options[working-dir] when computing the defaults; its precondition
(spec section 4.2) is that working-dir is already present, and the
embedding totalizes the read with the empty string. -/
def getOptionsWithDefaults (cwd : String) (o : Options) : Options :=
  let wd := o.workingDir.getD ""
  let buildDir := o.buildDir.getD (pathJoin wd "build")
  let repoDir := o.repoDir.getD (pathJoin wd "repo")
  let manifestPath := o.manifestPath.getD (pathJoin wd "manifest.json")
  { o with
    workingDir := some (pathResolve cwd (some wd))
    buildDir := some (pathResolve cwd (some buildDir))
    repoDir := some (pathResolve cwd (some repoDir))
    manifestPath := some (pathResolve cwd (some manifestPath))
    bundlePath := some (pathResolve cwd o.bundlePath)
    extraFlatpakBuilderArgs := some (o.extraFlatpakBuilderArgs.getD [])
    extraFlatpakBuildBundleArgs := some (o.extraFlatpakBuildBundleArgs.getD []) }

/-- getManifestWithDefaults from src/index.js: the lodash defaults merge
with the fixed defaults object, rendered field by field (each field keeps
the input value when the key is present and takes the default otherwise),
plus the conditional default: runtime-version 1.4 is put into the defaults
object only when the runtime key is absent from the input manifest — so an
input-supplied runtime-version is never overwritten. -/
def getManifestWithDefaults (m : Manifest) : Manifest :=
  { m with
    branch := some (m.branch.getD "master")
    sdk := some (m.sdk.getD "org.freedesktop.Sdk")
    runtime := some (m.runtime.getD "org.freedesktop.Platform")
    runtimeVersion :=
      if m.runtime.isNone then some (m.runtimeVersion.getD "1.4")
      else m.runtimeVersion
    modules := some (m.modules.getD [])
    files := some (m.files.getD [])
    symlinks := some (m.symlinks.getD []) }

/-! ## Command-line argument construction -/

/-- The dynamic values the source passes to addCommandLineOption: a string
option that may be absent, or a boolean. -/
inductive ArgValue where
  | undef
  | bool (b : Bool)
  | str (s : String)
deriving Repr, DecidableEq

/-- View of an optional string option as an ArgValue. -/
def ArgValue.ofOpt : Option String → ArgValue
  | none => ArgValue.undef
  | some s => ArgValue.str s

/-- addCommandLineOption from src/index.js: a falsy value (absent, false,
empty string) contributes nothing, true contributes a bare flag, any
other value contributes a name=value pair. -/
def addCommandLineOption (args : List String) (name : String) (value : ArgValue) : List String :=
  match value with
  | ArgValue.undef => args
  | ArgValue.bool b => if b then args ++ ["--" ++ name] else args
  | ArgValue.str s => if s = "" then args else args ++ ["--" ++ name ++ "=" ++ s]

/-- The argument list built by flatpakBuilder in src/index.js.  The line
args.concat(options[extra-flatpak-builder-args]) calls Array.concat,
which returns a fresh array; the source discards that return value, so
the extra arguments never reach the argument list and the positional
build-dir and manifest-path follow the mode flag directly. -/
def flatpakBuilderArgs (o : Options) (finish : Bool) : List String :=
  let args : List String := []
  let args := addCommandLineOption args "arch" (ArgValue.ofOpt o.arch)
  let args := addCommandLineOption args "gpg-sign" (ArgValue.ofOpt o.gpgSign)
  let args := addCommandLineOption args "gpg-homedir" (ArgValue.ofOpt o.gpgHomedir)
  let args := addCommandLineOption args "subject" (ArgValue.ofOpt o.subject)
  let args := addCommandLineOption args "body" (ArgValue.ofOpt o.body)
  let args := addCommandLineOption args "repo" (ArgValue.ofOpt o.repoDir)
  let args := addCommandLineOption args "force-clean" (ArgValue.bool true)
  let args :=
    if !finish then addCommandLineOption args "build-only" (ArgValue.bool true)
    else addCommandLineOption args "finish-only" (ArgValue.bool true)
  args ++ [o.buildDir.getD "", o.manifestPath.getD ""]

/-- The argument list built by flatpakBuildBundle in src/index.js.  As in
flatpakBuilderArgs, the args.concat(options[extra-flatpak-build-bundle-args])
result is discarded by the source, so the extra arguments never appear. -/
def flatpakBuildBundleArgs (o : Options) (m : Manifest) : List String :=
  let args : List String := ["build-bundle"]
  let args := addCommandLineOption args "arch" (ArgValue.ofOpt o.arch)
  let args := addCommandLineOption args "gpg-sign" (ArgValue.ofOpt o.gpgSign)
  let args := addCommandLineOption args "gpg-homedir" (ArgValue.ofOpt o.gpgHomedir)
  let args := addCommandLineOption args "repo-url" (ArgValue.ofOpt o.bundleRepoUrl)
  let args :=
    if o.buildRuntime then addCommandLineOption args "runtime" (ArgValue.bool true)
    else args
  args ++ [o.repoDir.getD "", o.bundlePath.getD "", m.id.getD "", m.branch.getD ""]

/-! ## Effects and the pipeline

Each effectful stage is a function from an environment of operation
outcomes to the pair of the external effects it performed (in order) and
the promise resolution or rejection.  Rejections carry the JS Error
message. -/

/-- One external effect of the pipeline, in the order it was started. -/
inductive Event where
  | tmpdir (dir : String)
  | mkdirs (dir : String)
  | writeFile (p : String)
  | copy (src : String) (dest : String)
  | symlink (target : String) (dest : String)
  | spawn (command : String) (args : List String)
deriving Repr, DecidableEq

/-- Outcome of a childProcess.spawn: the close event with an exit code,
or an error event (e.g. executable not found) before any close. -/
inductive SpawnOutcome where
  | exit (code : Int)
  | launchError (msg : String)
deriving Repr, DecidableEq

/-- Environment supplying the outcome of every external operation the
pipeline can perform.  cwd is the invoking process current working
directory (used by path.resolve). -/
structure Env where
  cwd : String
  tmpdirResult : Except String String
  mkdirsResult : String → Except String Unit
  writeFileResult : String → Except String Unit
  copyResult : String → String → Except String Unit
  symlinkResult : String → String → Except String Unit
  spawnResult : String → List String → SpawnOutcome

/-- A stage outcome: the effects performed and the settled promise. -/
abbrev Run (α : Type) := List Event × Except String α

/-- Promise chaining: on rejection later effects do not run; on success
the effect lists concatenate. -/
def runBind {α β : Type} (x : Run α) (f : α → Run β) : Run β :=
  match x with
  | (evs, Except.error e) => (evs, Except.error e)
  | (evs, Except.ok a) =>
    let (evs2, r) := f a
    (evs ++ evs2, r)

/-- fs.mkdirs (recursive directory creation, intermediate segments
included) as an effect. -/
def doMkdirs (env : Env) (dir : String) : Run Unit :=
  ([Event.mkdirs dir], env.mkdirsResult dir)

/-- fs.copy as an effect. -/
def doCopy (env : Env) (src dest : String) : Run Unit :=
  ([Event.copy src dest], env.copyResult src dest)

/-- fs.symlink as an effect. -/
def doSymlink (env : Env) (target dest : String) : Run Unit :=
  ([Event.symlink target dest], env.symlinkResult target dest)

/-- spawnWithLogging from src/index.js: spawn the command, resolve on exit
status 0, reject with the message command failed with status code N on a
non-zero status, reject with the launch error when the process could not
start.  The logging of the command line and of the output streams is a
diagnostic side channel and is not modelled. -/
def spawnWithLogging (env : Env) (command : String) (args : List String) : Run Unit :=
  ([Event.spawn command args],
   match env.spawnResult command args with
   | SpawnOutcome.exit code =>
     if code ≠ 0 then
       Except.error (command ++ " failed with status code " ++ toString code)
     else Except.ok ()
   | SpawnOutcome.launchError msg => Except.error msg)

/-- Promise.all over a list of already-described operations: every
operation is started (all effects appear) and the aggregate resolves only
when every member resolves, rejecting with the first rejection in list
order (the source relies on no finer timing). -/
def promiseAll (xs : List (Run Unit)) : Run Unit :=
  (xs.foldr (fun x acc => x.1 ++ acc) [],
   xs.foldr
     (fun x acc => match x.2 with
       | Except.error e => Except.error e
       | Except.ok _ => acc)
     (Except.ok ()))

/-- ensureWorkingDir from src/index.js: a falsy working-dir (absent or
empty) allocates a temporary directory under /var/tmp and records it in
the options; otherwise the directory is created with fs.mkdirs. -/
def ensureWorkingDir (env : Env) (o : Options) : Run Options :=
  if o.workingDir.getD "" = "" then
    match env.tmpdirResult with
    | Except.ok dir => ([Event.tmpdir dir], Except.ok { o with workingDir := some dir })
    | Except.error e => ([], Except.error e)
  else
    runBind (doMkdirs env (o.workingDir.getD "")) (fun _ => ([], Except.ok o))

/-- writeJsonFile from src/index.js: write the pretty-printed manifest at
manifest-path (the serialized text is not needed by any claim and is not
carried in the event). -/
def writeJsonFile (env : Env) (o : Options) : Run Unit :=
  ([Event.writeFile (o.manifestPath.getD "")], env.writeFileResult (o.manifestPath.getD ""))

/-- copyFiles from src/index.js: for each (source, destination) pair,
resolve source against the process cwd, join destination under
build-dir/files, create the destination directory itself when it ends
with the path separator and its parent directory otherwise, then copy;
all pairs run under Promise.all. -/
def copyFiles (env : Env) (o : Options) (m : Manifest) : Run Unit :=
  promiseAll ((m.files.getD []).map fun sourceDest =>
    let source := pathResolve env.cwd (some sourceDest.1)
    let dest := pathJoin (pathJoin (o.buildDir.getD "") "files") sourceDest.2
    let dir := if endsWithChar dest '/' then dest else pathDirname dest
    runBind (doMkdirs env dir) (fun _ => doCopy env source dest))

/-- createSymlinks from src/index.js: for each (target, destination) pair,
link target is /app/target and link location is build-dir/files/destination;
the parent directory is created and then the symlink is started — but the
source returns the mkdirs promise chained to a callback that does not
return the symlink promise, so the symlink effect is performed while its
outcome never reaches the aggregate: each member settles from the mkdirs
result alone. -/
def createSymlinks (env : Env) (o : Options) (m : Manifest) : Run Unit :=
  promiseAll ((m.symlinks.getD []).map fun targetDest =>
    let target := pathJoin "/app" targetDest.1
    let dest := pathJoin (pathJoin (o.buildDir.getD "") "files") targetDest.2
    let dir := pathDirname dest
    runBind (doMkdirs env dir) (fun _ =>
      ((doSymlink env target dest).1, Except.ok ())))

/-- flatpakBuilder from src/index.js: one builder invocation, in build-only
mode when finish is false and finish-only mode when finish is true. -/
def flatpakBuilder (env : Env) (o : Options) (finish : Bool) : Run Unit :=
  spawnWithLogging env "flatpak-builder" (flatpakBuilderArgs o finish)

/-- flatpakBuildBundle from src/index.js: an immediate success without any
effect when bundle-path is falsy; otherwise create the parent directory of
bundle-path and then spawn the bundler. -/
def flatpakBuildBundle (env : Env) (o : Options) (m : Manifest) : Run Unit :=
  if o.bundlePath.getD "" = "" then ([], Except.ok ())
  else
    runBind (doMkdirs env (pathDirname (o.bundlePath.getD ""))) (fun _ =>
      spawnWithLogging env "flatpak" (flatpakBuildBundleArgs o m))

/-- exports.bundle from src/index.js, after the initial kebabify of the
raw manifest and options objects (embedded separately over Jv; the
structured inputs here carry the post-kebabify keys): ensure the working
directory, apply option and manifest defaults, write the manifest, run
the builder in build-only mode, stage files, stage symlinks, run the
builder in finish-only mode, optionally bundle; the completion callback
receives either the single terminal error or the finalized options and
manifest. -/
def bundle (env : Env) (manifest0 : Manifest) (options0 : Options) :
    Run (Options × Manifest) :=
  runBind (ensureWorkingDir env options0) (fun options1 =>
    let options := getOptionsWithDefaults env.cwd options1
    let manifest := getManifestWithDefaults manifest0
    runBind (writeJsonFile env options) (fun _ =>
    runBind (flatpakBuilder env options false) (fun _ =>
    runBind (copyFiles env options manifest) (fun _ =>
    runBind (createSymlinks env options manifest) (fun _ =>
    runBind (flatpakBuilder env options true) (fun _ =>
    runBind (flatpakBuildBundle env options manifest) (fun _ =>
      ([], Except.ok (options, manifest)))))))))

/-! ## Filesystem interpretation of the effects

The copy and mkdirs primitives live in the external fs library, not in
this repository; their filesystem-level meaning is taken from the spec
(section 4.5) so that staging outcomes can be stated. -/

/-- Filesystem state: regular files with their contents, and the set of
directories known to exist. -/
structure FsState where
  regular : List (String × String)
  dirs : List String
deriving Repr, DecidableEq

/-- Content of a regular file, none when absent. -/
def fsRead (fs : FsState) (p : String) : Option String :=
  (fs.regular.find? (fun f => f.1 = p)).map Prod.snd

/-- Create or overwrite a regular file. -/
def fsWrite (fs : FsState) (p : String) (content : String) : FsState :=
  { fs with regular := (p, content) :: fs.regular.filter (fun f => f.1 ≠ p) }

/-- Modelled from the spec: the filesystem meaning of the external fs
primitives (fs-extra mkdirs and copy are not part of this repository).
Per spec section 4.5, mkdirs makes the directory exist, and a copy whose
destination carries a trailing path separator places the source file
inside that directory under its base name, while any other destination
receives the source content at that exact path, overwriting; a copy whose
source does not exist changes nothing (its promise rejects instead).
Spawns, symlinks and the manifest write do not affect the modelled
regular-file map. -/
def applyEvent (fs : FsState) : Event → FsState
  | Event.mkdirs d => { fs with dirs := d :: fs.dirs }
  | Event.copy src dest =>
    match fsRead fs src with
    | some content =>
      let target := if endsWithChar dest '/' then dest ++ pathBasename src else dest
      fsWrite fs target content
    | none => fs
  | _ => fs

/-- Fold a trace of effects over a starting filesystem state. -/
def applyEvents (fs : FsState) (evs : List Event) : FsState :=
  evs.foldl applyEvent fs

/-! ## Theorems -/

/-- An optional path option that is present and absolute. -/
def absOpt : Option String → Bool
  | none => false
  | some p => isAbsolute p

theorem isAbsolute_append (a b : String) (h : isAbsolute a = true) :
    isAbsolute (a ++ b) = true := by
  unfold isAbsolute at *
  have hd : (a ++ b).data = a.data ++ b.data := rfl
  rw [hd]
  rw [List.head?_append_of_ne_nil]
  · exact h
  · intro hnil
    rw [hnil] at h
    simp at h

theorem isAbsolute_pathJoin (a b : String) (h : isAbsolute a = true) :
    isAbsolute (pathJoin a b) = true := by
  have hne : a ≠ "" := by
    intro hz
    rw [hz] at h
    simp [isAbsolute] at h
  unfold pathJoin
  rw [if_neg hne]
  by_cases hb : b = ""
  · rw [if_pos hb]; exact h
  · rw [if_neg hb]
    by_cases hs : endsWithChar a '/' = true
    · rw [if_pos hs]; exact isAbsolute_append a b h
    · rw [if_neg hs]
      exact isAbsolute_append (a ++ "/") b (isAbsolute_append a "/" h)

theorem isAbsolute_pathResolve (cwd : String) (p : Option String)
    (h : isAbsolute cwd = true) : isAbsolute (pathResolve cwd p) = true := by
  cases p with
  | none => exact h
  | some s =>
    simp only [pathResolve]
    by_cases hz : s = ""
    · simp only [hz, if_pos rfl]; exact h
    · rw [if_neg hz]
      by_cases ha : isAbsolute s = true
      · rw [if_pos ha]; exact ha
      · rw [if_neg ha]; exact isAbsolute_pathJoin cwd s h

/-- C8.  For every input options value whose working-dir is non-empty
(and with the invoking process in an absolute current directory, as a
process cwd always is), every path-valued option among working-dir,
build-dir, repo-dir, manifest-path and bundle-path of the resolved
options is present and absolute, whether the input value was relative,
absolute, or (for the defaultable ones) absent. -/
theorem resolvedOptions_paths_absolute (cwd : String) (o : Options) (wd : String)
    (hcwd : isAbsolute cwd = true) (hwd : o.workingDir = some wd) (hne : wd ≠ "") :
    absOpt (getOptionsWithDefaults cwd o).workingDir = true ∧
    absOpt (getOptionsWithDefaults cwd o).buildDir = true ∧
    absOpt (getOptionsWithDefaults cwd o).repoDir = true ∧
    absOpt (getOptionsWithDefaults cwd o).manifestPath = true ∧
    absOpt (getOptionsWithDefaults cwd o).bundlePath = true := by
  have _ := hne
  refine ⟨?_, ?_, ?_, ?_, ?_⟩ <;>
    simp only [getOptionsWithDefaults, hwd, absOpt] <;>
    exact isAbsolute_pathResolve cwd _ hcwd

/-- Witness for C8 at a concrete input: a relative working-dir, an
absolute explicit build-dir, a relative bundle-path and absent remaining
paths all come out absolute. -/
theorem resolvedOptions_paths_absolute_witness :
    isAbsolute "/top" = true ∧
    ({ workingDir := some "w", buildDir := some "/b",
       bundlePath := some "out/x.flatpak" } : Options).workingDir = some "w" ∧
    ("w" : String) ≠ "" ∧
    (absOpt (getOptionsWithDefaults "/top"
        { workingDir := some "w", buildDir := some "/b",
          bundlePath := some "out/x.flatpak" }).workingDir = true ∧
     absOpt (getOptionsWithDefaults "/top"
        { workingDir := some "w", buildDir := some "/b",
          bundlePath := some "out/x.flatpak" }).buildDir = true ∧
     absOpt (getOptionsWithDefaults "/top"
        { workingDir := some "w", buildDir := some "/b",
          bundlePath := some "out/x.flatpak" }).repoDir = true ∧
     absOpt (getOptionsWithDefaults "/top"
        { workingDir := some "w", buildDir := some "/b",
          bundlePath := some "out/x.flatpak" }).manifestPath = true ∧
     absOpt (getOptionsWithDefaults "/top"
        { workingDir := some "w", buildDir := some "/b",
          bundlePath := some "out/x.flatpak" }).bundlePath = true) :=
  ⟨by decide, rfl, by decide,
   resolvedOptions_paths_absolute "/top" _ "w" (by decide) rfl (by decide)⟩

/-- C6, counterexample.  The claimed equivalence — the defaulted manifest
carries runtime-version 1.4 exactly when runtime was absent from the
input — fails at the input manifest that supplies runtime-version 2.0 and
no runtime: runtime is absent, yet the defaulted manifest keeps the
caller value 2.0 instead of 1.4, because defaults never overwrite a
present key. -/
theorem manifestDefaults_runtimeVersion_iff_fails :
    ¬ (((getManifestWithDefaults { runtimeVersion := some "2.0" }).runtimeVersion
          = some "1.4")
        ↔ ({ runtimeVersion := some "2.0" } : Manifest).runtime = none) := by
  decide

/-- C6, amended.  For every input manifest that does not itself supply a
runtime-version key, the defaulted manifest contains runtime-version with
value 1.4 exactly when runtime was absent from the manifest before
defaulting (and contains no runtime-version key exactly when runtime was
supplied); in particular the empty manifest gains runtime-version 1.4 and
a manifest supplying only runtime gains no runtime-version key.  When the
input does supply runtime-version, that value is kept (see the C10
theorem). -/
theorem manifestDefaults_runtimeVersion_iff (m : Manifest)
    (h : m.runtimeVersion = none) :
    (((getManifestWithDefaults m).runtimeVersion = some "1.4") ↔ m.runtime = none) ∧
    (((getManifestWithDefaults m).runtimeVersion = none) ↔ m.runtime ≠ none) := by
  cases hr : m.runtime <;>
    simp [getManifestWithDefaults, h, hr]

/-- Witness for the amended C6 at the empty manifest. -/
theorem manifestDefaults_runtimeVersion_iff_witness :
    ({} : Manifest).runtimeVersion = none ∧
    ((((getManifestWithDefaults {}).runtimeVersion = some "1.4")
        ↔ ({} : Manifest).runtime = none) ∧
     (((getManifestWithDefaults {}).runtimeVersion = none)
        ↔ ({} : Manifest).runtime ≠ none)) :=
  ⟨rfl, manifestDefaults_runtimeVersion_iff {} rfl⟩

/-- C10.  For every input manifest that supplies a runtime-version value
but no runtime key, the defaulted manifest preserves the caller value
unchanged: the 1.4 default never overwrites a present runtime-version. -/
theorem manifestDefaults_preserves_runtimeVersion (m : Manifest) (v : String)
    (hv : m.runtimeVersion = some v) (hr : m.runtime = none) :
    (getManifestWithDefaults m).runtimeVersion = some v := by
  simp [getManifestWithDefaults, hv, hr]

/-- Witness for C10 at the manifest supplying runtime-version 2.0 only. -/
theorem manifestDefaults_preserves_runtimeVersion_witness :
    ({ runtimeVersion := some "2.0" } : Manifest).runtimeVersion = some "2.0" ∧
    ({ runtimeVersion := some "2.0" } : Manifest).runtime = none ∧
    (getManifestWithDefaults { runtimeVersion := some "2.0" }).runtimeVersion
      = some "2.0" :=
  ⟨rfl, rfl,
   manifestDefaults_preserves_runtimeVersion { runtimeVersion := some "2.0" } "2.0" rfl rfl⟩

theorem objAssign_fresh (acc : List (String × Jv)) (k : String) (v : Jv)
    (h : k ∉ acc.map Prod.fst) :
    objAssign acc k v = acc ++ [(k, v)] := by
  unfold objAssign
  rw [if_neg]
  simp only [List.any_eq_true, decide_eq_true_eq, not_exists]
  rintro x ⟨hx, hxk⟩
  exact h (hxk ▸ List.mem_map_of_mem Prod.fst hx)

theorem kebabFold_eq (kvs : List (String × Jv)) (acc : List (String × Jv))
    (h : (acc.map Prod.fst ++ kvs.map fun kv => kebabCase kv.1).Nodup) :
    kvs.foldl (fun a kv => objAssign a (kebabCase kv.1) kv.2) acc
      = acc ++ kvs.map fun kv => (kebabCase kv.1, kv.2) := by
  induction kvs generalizing acc with
  | nil => simp
  | cons kv rest ih =>
    obtain ⟨k, v⟩ := kv
    simp only [List.map_cons] at h
    have hnotin : kebabCase k ∉ acc.map Prod.fst := by
      rw [List.nodup_append] at h
      intro hmem
      exact h.2.2 hmem (List.mem_cons_self _ _)
    have hstep : objAssign acc (kebabCase k) v = acc ++ [(kebabCase k, v)] :=
      objAssign_fresh acc (kebabCase k) v hnotin
    have hperm :
        ((acc ++ [(kebabCase k, v)]).map Prod.fst
          ++ rest.map fun kv => kebabCase kv.1).Nodup := by
      rw [List.map_append]
      rw [List.append_assoc]
      exact h
    calc ((k, v) :: rest).foldl (fun a kv => objAssign a (kebabCase kv.1) kv.2) acc
        = rest.foldl (fun a kv => objAssign a (kebabCase kv.1) kv.2)
            (acc ++ [(kebabCase k, v)]) := by
          rw [List.foldl_cons, hstep]
      _ = (acc ++ [(kebabCase k, v)]) ++ rest.map fun kv => (kebabCase kv.1, kv.2) :=
          ih _ hperm
      _ = acc ++ ((kebabCase k, v) :: rest.map fun kv => (kebabCase kv.1, kv.2)) := by
          rw [List.append_assoc]; rfl

/-- C2, amended.  kebabify rewrites only the top-level mapping keys to
dash-separated lowercase and passes every property value through
unchanged (so mapping keys at deeper nesting levels are not rewritten and
nested values are shared with the input rather than cloned); scalar and
null inputs come back unchanged.  Stated for inputs whose rewritten
top-level keys do not collide, so that the successive-assignment
construction is the plain entrywise rewrite. -/
theorem kebabify_top_level_only (kvs : List (String × Jv))
    (h : (kvs.map fun kv => kebabCase kv.1).Nodup) :
    kebabify (Jv.obj kvs) = Jv.obj (kvs.map fun kv => (kebabCase kv.1, kv.2)) ∧
    kebabify Jv.null = Jv.null ∧
    (∀ b, kebabify (Jv.bool b) = Jv.bool b) ∧
    (∀ n, kebabify (Jv.num n) = Jv.num n) ∧
    (∀ s, kebabify (Jv.str s) = Jv.str s) := by
  refine ⟨?_, rfl, fun b => rfl, fun n => rfl, fun s => rfl⟩
  show Jv.obj (kvs.foldl (fun acc kv => objAssign acc (kebabCase kv.1) kv.2) [])
    = Jv.obj (kvs.map fun kv => (kebabCase kv.1, kv.2))
  rw [kebabFold_eq kvs [] (by simpa using h)]
  rfl

/-- Witness for the amended C2 at a two-key mapping with a nested
mapping value: the top-level keys are kebab-cased, the nested value
(nested key included) is untouched. -/
theorem kebabify_top_level_only_witness :
    ([("fooBar", Jv.obj [("bazQux", Jv.num 7)]), ("x", Jv.null)].map
        (fun kv => kebabCase kv.1)).Nodup ∧
    kebabify (Jv.obj [("fooBar", Jv.obj [("bazQux", Jv.num 7)]), ("x", Jv.null)])
      = Jv.obj [("foo-bar", Jv.obj [("bazQux", Jv.num 7)]), ("x", Jv.null)] :=
  ⟨by decide,
   (kebabify_top_level_only _ (by decide)).1⟩

/-- Observer distinguishing the two sides of the C2 counterexample: the
first key of the first nested mapping value. -/
def nestedKeyProbe : Jv → Option String
  | Jv.obj ((_, Jv.obj ((k, _) :: _)) :: _) => some k
  | _ => none

/-- C2, counterexample.  kebabify is not the deep normalizer the claim
describes: at the input mapping with the nested key fooBar, the nested
key of the result is still fooBar, not the dash-separated foo-bar a copy
rewritten at every nesting depth would carry. -/
theorem kebabify_ne_deep_normalizer :
    kebabify (Jv.obj [("a", Jv.obj [("fooBar", Jv.num 0)])])
      ≠ kebabifySpec (Jv.obj [("a", Jv.obj [("fooBar", Jv.num 0)])]) := by
  intro h
  have h2 : (some "fooBar" : Option String) = some "foo-bar" := by
    calc (some "fooBar" : Option String)
        = nestedKeyProbe (kebabify (Jv.obj [("a", Jv.obj [("fooBar", Jv.num 0)])])) := by
          decide
      _ = nestedKeyProbe (kebabifySpec (Jv.obj [("a", Jv.obj [("fooBar", Jv.num 0)])])) := by
          rw [h]
      _ = some "foo-bar" := by decide
  exact absurd h2 (by decide)

theorem promiseAll_ok (xs : List (Run Unit)) (h : ∀ x ∈ xs, x.2 = Except.ok ()) :
    (promiseAll xs).2 = Except.ok () := by
  induction xs with
  | nil => rfl
  | cons x rest ih =>
    have hx : x.2 = Except.ok () := h x (List.mem_cons_self _ _)
    have hrest : ∀ y ∈ rest, y.2 = Except.ok () := fun y hy => h y (List.mem_cons_of_mem _ hy)
    simp only [promiseAll, List.foldr_cons, hx]
    exact ih hrest

/-- C4.  For every environment in which the parent-directory creations
succeed, the symlink phase's aggregate promise settles successfully no
matter what outcome the environment assigns to the symbolic-link creation
operations themselves — the source drops the inner symlink promise, so a
link-creation failure never reaches the aggregate result. -/
theorem createSymlinks_ignores_symlink_failures (env : Env) (o : Options) (m : Manifest)
    (h : ∀ d, env.mkdirsResult d = Except.ok ()) :
    (createSymlinks env o m).2 = Except.ok () := by
  unfold createSymlinks
  refine promiseAll_ok _ ?_
  intro x hx
  simp only [List.mem_map] at hx
  obtain ⟨td, _, rfl⟩ := hx
  simp [runBind, doMkdirs, h]

/-- Environment whose symlink operations always fail while everything
else succeeds, together with everything-succeeds environments. -/
def envAllOk (cwd : String) : Env :=
  { cwd := cwd
    tmpdirResult := Except.ok "/var/tmp/tmp-1"
    mkdirsResult := fun _ => Except.ok ()
    writeFileResult := fun _ => Except.ok ()
    copyResult := fun _ _ => Except.ok ()
    symlinkResult := fun _ _ => Except.ok ()
    spawnResult := fun _ _ => SpawnOutcome.exit 0 }

/-- envAllOk with every symlink creation failing. -/
def envSymlinkFail (cwd : String) : Env :=
  { envAllOk cwd with symlinkResult := fun _ _ => Except.error "EEXIST" }

/-- Witness for C4: with a failing symlink operation and one symlinks
pair, the phase still settles successfully. -/
theorem createSymlinks_ignores_symlink_failures_witness :
    (envSymlinkFail "/top").symlinkResult "/app/bin/foo" "/w/build/files/foo-link"
      = Except.error "EEXIST" ∧
    (createSymlinks (envSymlinkFail "/top")
      { workingDir := some "/w", buildDir := some "/w/build" }
      { symlinks := some [("bin/foo", "foo-link")] }).2 = Except.ok () :=
  ⟨rfl,
   createSymlinks_ignores_symlink_failures (envSymlinkFail "/top")
     { workingDir := some "/w", buildDir := some "/w/build" }
     { symlinks := some [("bin/foo", "foo-link")] }
     (fun _ => rfl)⟩

theorem fsRead_fsWrite_self (fs : FsState) (p c : String) :
    fsRead (fsWrite fs p c) p = some c := by
  simp [fsRead, fsWrite]

/-- Concrete options for the C5 staging scenario: build directory
/w/build. -/
def optsC5 : Options := { workingDir := some "/w", buildDir := some "/w/build" }

/-- Concrete manifest for the C5 staging scenario: one files pair whose
destination carries a trailing path separator. -/
def manC5 : Manifest := { files := some [("a.txt", "sub/")] }

/-- C5.  For the files pair [a.txt, sub/] — destination ending with the
path separator — and any filesystem holding the resolved source file, the
copy phase succeeds, creates the directory build-dir/files/sub/ itself
(not merely its parent), and the staged file appears at
build-dir/files/sub/a.txt with content identical to the source. -/
theorem copyFiles_trailing_sep_dest (content : String) (fs0 : FsState)
    (h : fsRead fs0 "/top/a.txt" = some content) :
    (copyFiles (envAllOk "/top") optsC5 manC5).2 = Except.ok () ∧
    "/w/build/files/sub/" ∈ (applyEvents fs0 (copyFiles (envAllOk "/top") optsC5 manC5).1).dirs ∧
    fsRead (applyEvents fs0 (copyFiles (envAllOk "/top") optsC5 manC5).1)
      "/w/build/files/sub/a.txt" = some content := by
  have ht : (copyFiles (envAllOk "/top") optsC5 manC5).1
      = [Event.mkdirs "/w/build/files/sub/",
         Event.copy "/top/a.txt" "/w/build/files/sub/"] := rfl
  refine ⟨rfl, ?_, ?_⟩ <;> rw [ht]
  · show "/w/build/files/sub/" ∈
      (applyEvent (applyEvent fs0 (Event.mkdirs "/w/build/files/sub/"))
        (Event.copy "/top/a.txt" "/w/build/files/sub/")).dirs
    have h1 : fsRead (applyEvent fs0 (Event.mkdirs "/w/build/files/sub/")) "/top/a.txt"
        = some content := h
    have h2 : applyEvent (applyEvent fs0 (Event.mkdirs "/w/build/files/sub/"))
        (Event.copy "/top/a.txt" "/w/build/files/sub/")
        = fsWrite (applyEvent fs0 (Event.mkdirs "/w/build/files/sub/"))
            "/w/build/files/sub/a.txt" content := by
      show (match fsRead (applyEvent fs0 (Event.mkdirs "/w/build/files/sub/")) "/top/a.txt" with
        | some content =>
          fsWrite (applyEvent fs0 (Event.mkdirs "/w/build/files/sub/"))
            (if endsWithChar "/w/build/files/sub/" '/' = true
             then "/w/build/files/sub/" ++ pathBasename "/top/a.txt"
             else "/w/build/files/sub/") content
        | none => applyEvent fs0 (Event.mkdirs "/w/build/files/sub/")) = _
      rw [h1]
      rfl
    rw [h2]
    show "/w/build/files/sub/" ∈ ("/w/build/files/sub/" :: fs0.dirs)
    exact List.mem_cons_self _ _
  · have h1 : fsRead (applyEvent fs0 (Event.mkdirs "/w/build/files/sub/")) "/top/a.txt"
        = some content := h
    show fsRead (applyEvent (applyEvent fs0 (Event.mkdirs "/w/build/files/sub/"))
        (Event.copy "/top/a.txt" "/w/build/files/sub/")) "/w/build/files/sub/a.txt"
      = some content
    have h2 : applyEvent (applyEvent fs0 (Event.mkdirs "/w/build/files/sub/"))
        (Event.copy "/top/a.txt" "/w/build/files/sub/")
        = fsWrite (applyEvent fs0 (Event.mkdirs "/w/build/files/sub/"))
            "/w/build/files/sub/a.txt" content := by
      show (match fsRead (applyEvent fs0 (Event.mkdirs "/w/build/files/sub/")) "/top/a.txt" with
        | some content =>
          fsWrite (applyEvent fs0 (Event.mkdirs "/w/build/files/sub/"))
            (if endsWithChar "/w/build/files/sub/" '/' = true
             then "/w/build/files/sub/" ++ pathBasename "/top/a.txt"
             else "/w/build/files/sub/") content
        | none => applyEvent fs0 (Event.mkdirs "/w/build/files/sub/")) = _
      rw [h1]
      rfl
    rw [h2]
    exact fsRead_fsWrite_self _ _ _

/-- Witness for C5 at a concrete filesystem and content. -/
theorem copyFiles_trailing_sep_dest_witness :
    fsRead { regular := [("/top/a.txt", "hello")], dirs := [] } "/top/a.txt" = some "hello" ∧
    ((copyFiles (envAllOk "/top") optsC5 manC5).2 = Except.ok () ∧
     "/w/build/files/sub/" ∈ (applyEvents { regular := [("/top/a.txt", "hello")], dirs := [] }
        (copyFiles (envAllOk "/top") optsC5 manC5).1).dirs ∧
     fsRead (applyEvents { regular := [("/top/a.txt", "hello")], dirs := [] }
        (copyFiles (envAllOk "/top") optsC5 manC5).1) "/w/build/files/sub/a.txt"
       = some "hello") :=
  ⟨by decide, copyFiles_trailing_sep_dest "hello" _ (by decide)⟩

/-- C9.  For every run in which a (truthy) bundle path is configured and
its parent directory can be created, the bundler stage performs exactly
the recursive creation of the bundle path's parent directory followed by
the bundler spawn — the directory creation strictly precedes the spawn. -/
theorem bundleParentDir_created_before_spawn (env : Env) (o : Options) (m : Manifest)
    (bp : String) (hbp : o.bundlePath = some bp) (hne : bp ≠ "")
    (hmk : env.mkdirsResult (pathDirname bp) = Except.ok ()) :
    (flatpakBuildBundle env o m).1
      = [Event.mkdirs (pathDirname bp),
         Event.spawn "flatpak" (flatpakBuildBundleArgs o m)] := by
  unfold flatpakBuildBundle
  rw [hbp]
  simp only [Option.getD_some]
  rw [if_neg hne]
  simp [runBind, doMkdirs, hmk, spawnWithLogging]

/-- Witness for C9 at a concrete bundle path. -/
theorem bundleParentDir_created_before_spawn_witness :
    ({ workingDir := some "/w", repoDir := some "/w/repo",
       bundlePath := some "/out/x.flatpak" } : Options).bundlePath
      = some "/out/x.flatpak" ∧
    ("/out/x.flatpak" : String) ≠ "" ∧
    (flatpakBuildBundle (envAllOk "/top")
      { workingDir := some "/w", repoDir := some "/w/repo",
        bundlePath := some "/out/x.flatpak" }
      { id := some "my.id", branch := some "master" }).1
      = [Event.mkdirs "/out",
         Event.spawn "flatpak"
           ["build-bundle", "/w/repo", "/out/x.flatpak", "my.id", "master"]] :=
  ⟨rfl, by decide,
   bundleParentDir_created_before_spawn (envAllOk "/top")
     { workingDir := some "/w", repoDir := some "/w/repo",
       bundlePath := some "/out/x.flatpak" }
     { id := some "my.id", branch := some "master" }
     "/out/x.flatpak" rfl (by decide) rfl⟩

/-- C7.  For every run whose working directory is supplied (and
creatable) and whose manifest write succeeds, when the builder's first
(build-only) invocation exits with status 2, the pipeline performs
exactly the working-directory creation, the manifest write and that one
spawn — no file copy, no symlink, no second builder and no bundler
invocation — and the completion callback receives the single terminal
error naming status code 2. -/
theorem pipeline_stops_at_first_builder_failure (env : Env) (o : Options) (m : Manifest)
    (wd : String) (hwd : o.workingDir = some wd) (hne : wd ≠ "")
    (hmk : ∀ d, env.mkdirsResult d = Except.ok ())
    (hwr : ∀ p, env.writeFileResult p = Except.ok ())
    (hsp : env.spawnResult "flatpak-builder"
        (flatpakBuilderArgs (getOptionsWithDefaults env.cwd o) false)
      = SpawnOutcome.exit 2) :
    bundle env m o
      = ([Event.mkdirs wd,
          Event.writeFile ((getOptionsWithDefaults env.cwd o).manifestPath.getD ""),
          Event.spawn "flatpak-builder"
            (flatpakBuilderArgs (getOptionsWithDefaults env.cwd o) false)],
         Except.error "flatpak-builder failed with status code 2") := by
  unfold bundle ensureWorkingDir
  rw [hwd]
  simp only [Option.getD_some]
  rw [if_neg hne]
  simp only [runBind, doMkdirs, hmk wd]
  unfold writeJsonFile flatpakBuilder spawnWithLogging
  rw [hwr, hsp]
  norm_num
  decide

/-- All-succeeding environment except that every spawn exits with
status 2. -/
def envExit2 (cwd : String) : Env :=
  { envAllOk cwd with spawnResult := fun _ _ => SpawnOutcome.exit 2 }

/-- Witness for C7 at a concrete run. -/
theorem pipeline_stops_at_first_builder_failure_witness :
    bundle (envExit2 "/top") { id := some "my.id" } { workingDir := some "/w" }
      = ([Event.mkdirs "/w",
          Event.writeFile "/w/manifest.json",
          Event.spawn "flatpak-builder"
            ["--repo=/w/repo", "--force-clean", "--build-only",
             "/w/build", "/w/manifest.json"]],
         Except.error "flatpak-builder failed with status code 2") :=
  pipeline_stops_at_first_builder_failure (envExit2 "/top")
    { workingDir := some "/w" } { id := some "my.id" } "/w" rfl (by decide)
    (fun _ => rfl) (fun _ => rfl) rfl

/-- C1, evaluation at the failing input.  A run whose options carry no
bundle-path key still spawns the bundler: option resolution rewrites the
absent bundle-path to path.resolve of the absent value — the invoking
process current directory /top — so the falsy guard in flatpakBuildBundle
never fires and the run (all external operations succeeding) spawns
flatpak build-bundle with the spurious positional bundle path /top. -/
theorem bundler_spawned_without_bundle_path :
    ({ workingDir := some "/w" } : Options).bundlePath = none ∧
    Event.spawn "flatpak" ["build-bundle", "/w/repo", "/top", "my.id", "master"]
      ∈ (bundle (envAllOk "/top") { id := some "my.id" } { workingDir := some "/w" }).1 ∧
    (bundle (envAllOk "/top") { id := some "my.id" } { workingDir := some "/w" }).2.isOk
      = true := by
  refine ⟨rfl, ?_, rfl⟩
  decide

/-- C3, evaluation at the failing input.  With non-empty extra argument
lists configured for both tools, neither builder invocation nor the
bundler invocation carries them: Array.concat returns a fresh array the
source discards, so the built argument lists run straight from the mode
flag (respectively the option flags) to the positional arguments. -/
theorem extra_args_never_reach_argv :
    (getOptionsWithDefaults "/top"
      { workingDir := some "/w", bundlePath := some "/out/x.flatpak",
        extraFlatpakBuilderArgs := some ["--extra-one"],
        extraFlatpakBuildBundleArgs := some ["--extra-two"] }).extraFlatpakBuilderArgs
      = some ["--extra-one"] ∧
    flatpakBuilderArgs (getOptionsWithDefaults "/top"
      { workingDir := some "/w", bundlePath := some "/out/x.flatpak",
        extraFlatpakBuilderArgs := some ["--extra-one"],
        extraFlatpakBuildBundleArgs := some ["--extra-two"] }) false
      = ["--repo=/w/repo", "--force-clean", "--build-only",
         "/w/build", "/w/manifest.json"] ∧
    flatpakBuilderArgs (getOptionsWithDefaults "/top"
      { workingDir := some "/w", bundlePath := some "/out/x.flatpak",
        extraFlatpakBuilderArgs := some ["--extra-one"],
        extraFlatpakBuildBundleArgs := some ["--extra-two"] }) true
      = ["--repo=/w/repo", "--force-clean", "--finish-only",
         "/w/build", "/w/manifest.json"] ∧
    flatpakBuildBundleArgs (getOptionsWithDefaults "/top"
      { workingDir := some "/w", bundlePath := some "/out/x.flatpak",
        extraFlatpakBuilderArgs := some ["--extra-one"],
        extraFlatpakBuildBundleArgs := some ["--extra-two"] })
      (getManifestWithDefaults { id := some "my.id" })
      = ["build-bundle", "/w/repo", "/out/x.flatpak", "my.id", "master"] ∧
    "--extra-one" ∉ flatpakBuilderArgs (getOptionsWithDefaults "/top"
      { workingDir := some "/w", bundlePath := some "/out/x.flatpak",
        extraFlatpakBuilderArgs := some ["--extra-one"],
        extraFlatpakBuildBundleArgs := some ["--extra-two"] }) false ∧
    "--extra-two" ∉ flatpakBuildBundleArgs (getOptionsWithDefaults "/top"
      { workingDir := some "/w", bundlePath := some "/out/x.flatpak",
        extraFlatpakBuilderArgs := some ["--extra-one"],
        extraFlatpakBuildBundleArgs := some ["--extra-two"] })
      (getManifestWithDefaults { id := some "my.id" }) := by
  refine ⟨rfl, rfl, rfl, rfl, ?_, ?_⟩ <;> decide

end FlatpakBundler
